import Mathlib

/-!
Shallow embedding of the jnc-downloader acquisition/download logic.

The definitions below translate the Python source under `src/` into Lean:

* `order_book`, `buy_coins` embed `JNClient.order_book` / `JNClient.buy_coins`
  from `src/jnc_api_tools.py`; `buy_credits` embeds `JNClient.buy_credits`
  from the older variant `src/jnc_api.py`.
* `planner_step` / `handle_new_books` embed `JNCUtils.handle_new_books`
  (src/jnc_api_tools.py lines 243-271).
* `download_book` / `process_library` embed `JNCUtils.download_book` and
  `JNCUtils.process_library` (src/jnc_api_tools.py lines 163-241).
* `get_new_series`, `unfollow_completed_series`, `nearest_pack` embed the
  functions of the same names in `src/jnc_api_tools.py`.

Network and file-system effects are embedded as oracles: a record of
functions giving, per book, the HTTP status code the server would answer,
the boolean `ok` field of a JSON body, whether a file write succeeds, and
the user's interactive confirmation answers.  Each network request and
file write the Python code would perform is recorded as an `Event`, so
that claims about "no network call" or "processing continues with the
next item" become statements about the event trace.  A Python exception
becomes an `Except.error` value that propagates exactly where the Python
code has no enclosing `try`.
-/

namespace JNC

/-- Embeds the fields of `JNCBook` (src/jnc_api_tools.py lines 32-69) that the
verified functions inspect.  Timestamps are integers (any totally ordered
encoding of the `datetime` values); optional fields default to `None` in
Python and to `none` here. -/
structure JNCBook where
  book_id : String
  title_slug : String
  volume_id : String
  series_slug : Option String
  volume_num : Int
  price : Int
  publish_date : Int
  updated_date : Option Int
  purchase_date : Option Int
  is_preorder : Option Bool
  is_owned : Option Bool
  download_link : Option String
  deriving Repr, DecidableEq

/-- The exception taxonomy of src/jnc_api_tools.py lines 532-545 and
src/jnc_api.py lines 431-444, plus Python's built-in `RuntimeError` and
`OSError` which those files can also raise. -/
inductive JNCError where
  | apiError : String → JNCError
  | noCoinsError : JNCError
  | argumentError : String → JNCError
  | runtimeError : String → JNCError
  | osError : JNCError
  deriving Repr, DecidableEq

/-- One observable side effect: a network request or a file write. -/
inductive Event where
  | redeemCall : String → Event
  | buyReq : Int → Event
  | buyNetCall : Int → Event
  | fetchInfo : String → Event
  | fetchContent : String → Event
  | fileWrite : String → Event
  deriving Repr, DecidableEq

/-- `requests.Response.ok` is true exactly when the status code is below 400. -/
def response_ok (status : Nat) : Bool := status < 400

/-- Embeds `JNClient.order_book` (src/jnc_api_tools.py lines 309-339).
`redeemStatus` is the HTTP status the redeem POST would answer.  Returns the
outcome, the coin balance after the call (the `user_data.coins` mutation), and
the network requests made.  The guard `user_data.coins >= book.price` runs
before any request; `user_data.coins -= book.price` runs only after the
response passed the 409 check and `response.ok`. -/
def order_book (redeemStatus : Nat) (b : JNCBook) (coins : Int) :
    Except JNCError Unit × Int × List Event :=
  if b.price ≤ coins then
    if redeemStatus == 409 then
      (Except.error (JNCError.apiError "Book already ordered"), coins,
        [Event.redeemCall b.volume_id])
    else if !response_ok redeemStatus then
      (Except.error (JNCError.apiError "Error when ordering book"), coins,
        [Event.redeemCall b.volume_id])
    else
      (Except.ok (), coins - b.price, [Event.redeemCall b.volume_id])
  else
    (Except.error JNCError.noCoinsError, coins, [])

/-- Embeds `JNClient.buy_coins` (src/jnc_api_tools.py lines 494-530).
`buyStatus` is the HTTP status of the purchase POST and `buyRespOk` the `ok`
field of its JSON body.  `Event.buyReq` marks the invocation, recorded before
the `500 > amount` validation; `Event.buyNetCall` marks the actual POST, so a
rejected amount produces no `buyNetCall`.  `user_data.coins += amount` runs
only on the success path. -/
def buy_coins (buyStatus : Nat) (buyRespOk : Bool) (amount : Int) (coins : Int) :
    Except JNCError Unit × Int × List Event :=
  if amount < 500 then
    (Except.error (JNCError.argumentError "It is not possible to buy less than 500 coins."),
      coins, [Event.buyReq amount])
  else if !(buyStatus < 300 : Bool) then
    (Except.error (JNCError.apiError "Could not purchase coins!"), coins,
      [Event.buyReq amount, Event.buyNetCall amount])
  else if buyStatus == 200 && !buyRespOk then
    (Except.error (JNCError.apiError "Could not purchase coins: message"), coins,
      [Event.buyReq amount, Event.buyNetCall amount])
  else
    (Except.ok (), coins + amount, [Event.buyReq amount, Event.buyNetCall amount])

/-- Embeds `JNClient.buy_credits` of the older variant (src/jnc_api.py lines
403-428).  The Python guard is the chained comparison `0 >= amount > 10`,
i.e. `0 >= amount and amount > 10`, translated literally. -/
def buy_credits (respStatus : Nat) (amount : Int) (credits : Int) :
    Except JNCError Unit × Int × List Event :=
  if 0 ≥ amount ∧ amount > 10 then
    (Except.error (JNCError.argumentError "It is not possible to buy less than 1 or more than 10 credits."),
      credits, [Event.buyReq amount])
  else if !(respStatus < 300 : Bool) then
    (Except.error (JNCError.apiError "Could not purchase credits!"), credits,
      [Event.buyReq amount, Event.buyNetCall amount])
  else
    (Except.ok (), credits + amount, [Event.buyReq amount, Event.buyNetCall amount])

/-- One coin pack of `JNCCoinOptions.packs` (src/jnc_api_tools.py lines 101-120). -/
structure CoinPack where
  coins : Int
  currentCentsCost : Int
  deriving Repr, DecidableEq

/-- The loop of `JNCCoinOptions.nearest_pack`: return the first pack whose
`coins` exceed `amount`. -/
def nearest_pack_go (amount : Int) (last : CoinPack) : List CoinPack → Int × Int
  | [] => (last.coins, last.currentCentsCost)
  | p :: ps =>
    if p.coins > amount then (p.coins, p.currentCentsCost)
    else nearest_pack_go amount last ps

/-- Embeds `JNCCoinOptions.nearest_pack` (src/jnc_api_tools.py lines 116-120):
the first pack in table order whose coin count exceeds `amount`, else
`packs[-1]`.  On an empty table Python's `packs[-1]` raises `IndexError`,
embedded as `none`. -/
def nearest_pack (packs : List CoinPack) (amount : Int) : Option (Int × Int) :=
  match packs.getLast? with
  | none => none
  | some last => some (nearest_pack_go amount last packs)

/-- The flag arguments of `JNCUtils.handle_new_books`
(src/jnc_api_tools.py lines 244-246): `buy_coins`, `no_confirm_order`,
`no_confirm_coins`. -/
structure PlannerPolicy where
  buy_coins_enabled : Bool
  no_confirm_order : Bool
  no_confirm_coins : Bool
  deriving Repr, DecidableEq

/-- The planner's environment, keyed by `book_id`: the user's interactive
answers (`JNCUtils.user_confirm`) and the server's responses to the redeem
POST, the coin-purchase POST and the `fetch_owned_book_info` GET. -/
structure PlannerOracle where
  confirm_order : String → Bool
  confirm_coins : String → Bool
  redeem_status : String → Nat
  buy_status : String → Nat
  buy_resp_ok : String → Bool
  fetch_info_status : String → Nat

/-- What one iteration of the `handle_new_books` loop does with the current
book: skip it (`continue`), stop the loop (`break`), order it, or raise. -/
inductive StepOutcome where
  | skipped : StepOutcome
  | halted : StepOutcome
  | orderedOk : StepOutcome
  | failed : JNCError → StepOutcome
  deriving Repr, DecidableEq

/-- The body of the `for book in new_books` loop of `JNCUtils.handle_new_books`
(src/jnc_api_tools.py lines 256-270), for one book: the per-item confirmation,
the conditional `JNClient.buy_coins` call (only when `user_data.coins == 0`),
the `user_data.coins < book.price` hard stop, `JNClient.order_book`, and the
`fetch_owned_book_info` refetch.  There is no `try` in the Python loop, so
every raised error becomes `StepOutcome.failed` and propagates. -/
def planner_step (pol : PlannerPolicy) (orc : PlannerOracle) (b : JNCBook)
    (coins : Int) : StepOutcome × Int × List Event :=
  if !pol.no_confirm_order && !orc.confirm_order b.book_id then
    (StepOutcome.skipped, coins, [])
  else
    let attemptBuy := coins == 0 && pol.buy_coins_enabled &&
      (pol.no_confirm_coins || orc.confirm_coins b.book_id)
    let buyRes :=
      if attemptBuy then
        buy_coins (orc.buy_status b.book_id) (orc.buy_resp_ok b.book_id) b.price coins
      else (Except.ok (), coins, [])
    match buyRes with
    | (Except.error e, coins1, evs1) => (StepOutcome.failed e, coins1, evs1)
    | (Except.ok _, coins1, evs1) =>
      if coins1 < b.price then (StepOutcome.halted, coins1, evs1)
      else
        match order_book (orc.redeem_status b.book_id) b coins1 with
        | (Except.error e, coins2, evs2) => (StepOutcome.failed e, coins2, evs1 ++ evs2)
        | (Except.ok _, coins2, evs2) =>
          if orc.fetch_info_status b.book_id < 300 then
            (StepOutcome.orderedOk, coins2, evs1 ++ evs2 ++ [Event.fetchInfo b.volume_id])
          else
            (StepOutcome.failed (JNCError.apiError "Could not fetch book info!"), coins2,
              evs1 ++ evs2 ++ [Event.fetchInfo b.volume_id])

/-- Embeds `JNCUtils.handle_new_books` (src/jnc_api_tools.py lines 243-271).
Arguments after the oracle: remaining books, current `user_data.coins`, the
`ordered_books` keys accumulated so far (insertion order), and the event trace
so far.  Returns the Python return value (`ordered_books` keys) or the
uncaught exception, together with the final coin balance and the full trace. -/
def handle_new_books (pol : PlannerPolicy) (orc : PlannerOracle) :
    List JNCBook → Int → List String → List Event →
    Except JNCError (List String) × Int × List Event
  | [], coins, ordered, evs => (Except.ok ordered, coins, evs)
  | b :: rest, coins, ordered, evs =>
    match planner_step pol orc b coins with
    | (StepOutcome.skipped, c1, e1) =>
      handle_new_books pol orc rest c1 ordered (evs ++ e1)
    | (StepOutcome.halted, c1, e1) => (Except.ok ordered, c1, evs ++ e1)
    | (StepOutcome.failed e, c1, e1) => (Except.error e, c1, evs ++ e1)
    | (StepOutcome.orderedOk, c1, e1) =>
      handle_new_books pol orc rest c1 (ordered ++ [b.book_id]) (evs ++ e1)

/-- Python-dict lookup on an association list (first matching key). -/
def assocLookup {α : Type} : List (String × α) → String → Option α
  | [], _ => none
  | (k, v) :: t, key => if k == key then some v else assocLookup t key

/-- Python-dict assignment `m[k] = v`: replace in place when the key exists,
append otherwise (dict insertion order is preserved). -/
def assocSet {α : Type} (m : List (String × α)) (k : String) (v : α) :
    List (String × α) :=
  if m.any (fun p => p.1 == k) then
    m.map (fun p => if p.1 == k then (k, v) else p)
  else m ++ [(k, v)]

/-- Python's `None in known` / `slug in known` for a list of strings: an
absent slug is never equal to a string element. -/
def optMem (s : Option String) (known : List String) : Bool :=
  match s with
  | none => false
  | some str => known.contains str

/-- The loop of `JNCUtils.get_new_series` (src/jnc_api_tools.py lines 186-192):
append `book.series_slug` when it differs from `''`, is not a known slug and
is not already in the result.  Python's `None != ''` is true, so an absent
slug passes the first test. -/
def get_new_series_go (known : List String) (result : List (Option String)) :
    List JNCBook → List (Option String)
  | [] => result
  | b :: rest =>
    if !(b.series_slug == some "") && !optMem b.series_slug known &&
        !result.contains b.series_slug then
      get_new_series_go known (result ++ [b.series_slug]) rest
    else
      get_new_series_go known result rest

/-- Embeds `JNCUtils.get_new_series` (src/jnc_api_tools.py lines 179-192).
The library is given as its values in dict insertion order. -/
def get_new_series (library : List JNCBook) (known : List String) :
    List (Option String) :=
  get_new_series_go known [] library

/-- Spec-side comparison function for `get_new_series`: de-duplicate keeping
the first occurrence of each element, continuing from `acc`. -/
def firstSeenDedup {α : Type} [BEq α] (acc : List α) : List α → List α
  | [] => acc
  | x :: xs =>
    if acc.contains x then firstSeenDedup acc xs
    else firstSeenDedup (acc ++ [x]) xs

/-- `needle.isPrefixOf hay` over characters, written out. -/
def leadsWith : List Char → List Char → Bool
  | [], _ => true
  | _ :: _, [] => false
  | a :: as, b :: bs => a == b && leadsWith as bs

/-- Python's substring test `needle in hay` over the character lists. -/
def hasSub (needle : List Char) : List Char → Bool
  | [] => needle.isEmpty
  | c :: cs => leadsWith needle (c :: cs) || hasSub needle cs

/-- Embeds `JNCSeries` (src/jnc_api_tools.py lines 88-98): `tags` is the
comma-joined tag string, `volumes` the `book_id → JNCBook` dict in insertion
order. -/
structure JNCSeriesM where
  slug : String
  tags : String
  volumes : List (String × JNCBook)
  deriving Repr, DecidableEq

/-- Python's `'fully translated' in serie.tags` (a substring test on the
joined tag string). -/
def tagged_fully_translated (s : JNCSeriesM) : Bool :=
  hasSub ("fully translated".toList) s.tags.toList

/-- Embeds `JNCUtils.unfollow_completed_series` (src/jnc_api_tools.py lines
206-219).  For each series with the tag substring, `is_completed` is the loop
`for book_id in serie.volumes: if book_id not in downloaded_book_ids: ...
break`, i.e. every volume key is in `downloaded`; when it holds the follow
state of the series slug is assigned `False`. -/
def unfollow_completed_series (downloaded : List String)
    (series : List JNCSeriesM) (follow : List (String × Bool)) :
    List (String × Bool) :=
  series.foldl
    (fun fs s =>
      if !tagged_fully_translated s then fs
      else if s.volumes.all (fun v => downloaded.contains v.1) then
        assocSet fs s.slug false
      else fs)
    follow

/-- The environment of `JNCUtils.download_book` and
`JNCUtils.process_library`, keyed by `book_id`: the HTTP status the content
GET would answer, and whether the local file write succeeds. -/
structure DLOracle where
  fetch_status : String → Nat
  write_ok : String → Bool

/-- Embeds `JNCUtils.download_book` (src/jnc_api_tools.py lines 163-177):
`RuntimeError` when there is no download link; the content GET; `JNCApiError`
on a non-200 status; then the file write, which as an OS operation can raise
`OSError` (embedded as the `write_ok` oracle). -/
def download_book (orc : DLOracle) (b : JNCBook) :
    Except JNCError Unit × List Event :=
  match b.download_link with
  | none => (Except.error (JNCError.runtimeError "Book does not have a download link."), [])
  | some _ =>
    if orc.fetch_status b.book_id ≠ 200 then
      (Except.error (JNCError.apiError "Book not available."),
        [Event.fetchContent b.book_id])
    else if orc.write_ok b.book_id then
      (Except.ok (), [Event.fetchContent b.book_id, Event.fileWrite b.book_id])
    else
      (Except.error JNCError.osError, [Event.fetchContent b.book_id])

/-- Embeds `JNCUtils.process_library` (src/jnc_api_tools.py lines 221-241).
The library is the `library.items()` list, the ledger the
`downloaded_book_dates` dict.  The skip condition and the should-fetch
condition are translated clause by clause; only `JNCApiError` is caught by
the `except` (src line 240), so `download_book`'s other errors propagate and
end the run. -/
def process_library (orc : DLOracle) (now : Int) (include_updated : Bool) :
    List (String × JNCBook) → List (String × Int) → List Event →
    Except JNCError Unit × List (String × Int) × List Event
  | [], ledger, evs => (Except.ok (), ledger, evs)
  | (book_id, b) :: rest, ledger, evs =>
    if b.is_preorder == some true || decide (now < b.publish_date) ||
        b.download_link == none ||
        ((assocLookup ledger book_id).isSome && !include_updated) then
      process_library orc now include_updated rest ledger evs
    else
      let shouldFetch :=
        match assocLookup ledger book_id with
        | none => true
        | some t =>
          include_updated &&
            (match b.updated_date with
             | none => false
             | some u => decide (t < u))
      if shouldFetch then
        match download_book orc b with
        | (Except.ok _, devs) =>
          process_library orc now include_updated rest
            (assocSet ledger book_id now) (evs ++ devs)
        | (Except.error (JNCError.apiError _), devs) =>
          process_library orc now include_updated rest ledger (evs ++ devs)
        | (Except.error e, devs) => (Except.error e, ledger, evs ++ devs)
      else
        process_library orc now include_updated rest ledger evs

/-- Modelled from the spec: the download-ledger loader of the current main
script is not under src/ (src's `JNCUtils.read_downloaded_books_file`, lines
156-161, returns only the set of ids, while `JNCUtils.process_library`
consumes a `book_id → datetime` map built by the missing caller).  Per the
spec, a legacy two-column row is assigned the later of the item's release and
purchase timestamps. -/
def infer_legacy_ledger_timestamp (publish : Int) (purchase : Option Int) : Int :=
  match purchase with
  | some p => max publish p
  | none => publish

/-- Modelled from the spec: loading one legacy two-column download-ledger row
`[book_id, marker]`, resolving the item through `books` and inferring the
timestamp with `infer_legacy_ledger_timestamp`.  Rows of any other shape are
out of this model's scope (`none`). -/
def load_legacy_ledger_row (books : String → Option JNCBook) (row : List String) :
    Option (String × Int) :=
  match row with
  | [book_id, _marker] =>
    match books book_id with
    | some b => some (book_id, infer_legacy_ledger_timestamp b.publish_date b.purchase_date)
    | none => none
  | _ => none

/-! ## Concrete fixtures used by the counterexamples and witnesses -/

/-- A minimal book with the given id, volume id and price. -/
def mkBook (id vid : String) (price : Int) : JNCBook :=
  { book_id := id, title_slug := id, volume_id := vid, series_slug := none,
    volume_num := 1, price := price, publish_date := 0, updated_date := none,
    purchase_date := none, is_preorder := none, is_owned := none,
    download_link := none }

/-- Ordering enabled without confirmations, coin purchase disabled. -/
def polNoBuy : PlannerPolicy :=
  { buy_coins_enabled := false, no_confirm_order := true, no_confirm_coins := false }

/-- Ordering and coin purchase enabled, all confirmations suppressed. -/
def polBuy : PlannerPolicy :=
  { buy_coins_enabled := true, no_confirm_order := true, no_confirm_coins := true }

/-- A server that answers 409 (already owned) for book `b1` and succeeds for
everything else; the user confirms everything. -/
def orc409 : PlannerOracle :=
  { confirm_order := fun _ => true, confirm_coins := fun _ => true,
    redeem_status := fun id => if id == "b1" then 409 else 204,
    buy_status := fun _ => 200, buy_resp_ok := fun _ => true,
    fetch_info_status := fun _ => 200 }

/-! ## C1 — per-item redeem failures in `handle_new_books` -/

/-- C1 counterexample.  The claim says a 409 "already owned" redeem response
is treated as success and any other per-item redeem failure lets the planner
continue with the next item.  Concretely: two orderable books `b1`, `b2`
(price 3 each), balance 10, the server answering 409 for `b1`: the run aborts
with the uncaught `JNCApiError "Book already ordered"`, the redeem for `b2`
is never attempted, and no ordered-books map is returned. -/
theorem c1_counterexample :
    handle_new_books polNoBuy orc409 [mkBook "b1" "v1" 3, mkBook "b2" "v2" 3] 10 [] [] =
      (Except.error (JNCError.apiError "Book already ordered"), 10,
        [Event.redeemCall "v1"]) ∧
    Event.redeemCall "v2" ∉
      (handle_new_books polNoBuy orc409 [mkBook "b1" "v1" 3, mkBook "b2" "v2" 3] 10 [] []).2.2 := by
  constructor
  · rfl
  · intro h
    simp [handle_new_books, planner_step, order_book, polNoBuy, orc409, mkBook,
      response_ok] at h

/-- C1 amended: when the redeem call for an item is answered 409 (already
owned) or with any failure status, `handle_new_books` raises the resulting
`JNCApiError` instead of continuing: the balance is not decremented for that
item, but no later item is processed (the trace ends at that redeem call) and
no ordered-books map is returned. -/
theorem c1_amended (pol : PlannerPolicy) (orc : PlannerOracle) (b : JNCBook)
    (rest : List JNCBook) (coins : Int) (ordered : List String) (evs : List Event)
    (hconf : (pol.no_confirm_order || orc.confirm_order b.book_id) = true)
    (hnobuy : (coins == 0 && pol.buy_coins_enabled &&
      (pol.no_confirm_coins || orc.confirm_coins b.book_id)) = false)
    (hfunds : b.price ≤ coins)
    (hfail : orc.redeem_status b.book_id = 409 ∨ 400 ≤ orc.redeem_status b.book_id) :
    ∃ msg, handle_new_books pol orc (b :: rest) coins ordered evs =
      (Except.error (JNCError.apiError msg), coins,
        evs ++ [Event.redeemCall b.volume_id]) := by
  have hskip : (!pol.no_confirm_order && !orc.confirm_order b.book_id) = false := by
    cases h1 : pol.no_confirm_order <;> cases h2 : orc.confirm_order b.book_id <;>
      simp_all
  by_cases h409 : orc.redeem_status b.book_id = 409
  · refine ⟨"Book already ordered", ?_⟩
    simp [handle_new_books, planner_step, hskip, hnobuy, order_book,
      Int.not_lt.mpr hfunds, hfunds, h409]
  · rcases hfail with h | h
    · exact absurd h h409
    · refine ⟨"Error when ordering book", ?_⟩
      have hok : response_ok (orc.redeem_status b.book_id) = false := by
        simp [response_ok]; omega
      simp [handle_new_books, planner_step, hskip, hnobuy, order_book,
        Int.not_lt.mpr hfunds, hfunds, h409, hok]

/-- C1 witness: the amended theorem applied to a concrete 409 run. -/
theorem c1_amended_witness :
    ∃ msg, handle_new_books polNoBuy orc409 [mkBook "b1" "v1" 3] 10 [] [] =
      (Except.error (JNCError.apiError msg), 10, [Event.redeemCall "v1"]) :=
  c1_amended polNoBuy orc409 (mkBook "b1" "v1" 3) [] 10 [] []
    (by decide) (by decide) (by decide) (Or.inl (by decide))

/-! ## C2 — insufficient funds is a hard stop -/

/-- C2: when the item's order is confirmed, no currency purchase happens for
it (the `coins == 0 and buy_coins and ...` condition is false) and the
balance is below the item's price, `handle_new_books` breaks out of the whole
loop: it returns the books ordered so far, performs no further network
request (the trace is unchanged) and leaves the balance unchanged. -/
theorem c2_insufficient_funds_halts (pol : PlannerPolicy) (orc : PlannerOracle)
    (b : JNCBook) (rest : List JNCBook) (coins : Int) (ordered : List String)
    (evs : List Event)
    (hconf : (pol.no_confirm_order || orc.confirm_order b.book_id) = true)
    (hnobuy : (coins == 0 && pol.buy_coins_enabled &&
      (pol.no_confirm_coins || orc.confirm_coins b.book_id)) = false)
    (hpoor : coins < b.price) :
    handle_new_books pol orc (b :: rest) coins ordered evs =
      (Except.ok ordered, coins, evs) := by
  have hskip : (!pol.no_confirm_order && !orc.confirm_order b.book_id) = false := by
    cases h1 : pol.no_confirm_order <;> cases h2 : orc.confirm_order b.book_id <;>
      simp_all
  simp [handle_new_books, planner_step, hskip, hnobuy, hpoor]

/-- C2 witness — the spec's scenario: balance 0, two orderable items priced 3
and 5, currency purchase disabled: neither is redeemed, the result map is
empty, the balance stays 0. -/
theorem c2_scenario_witness :
    handle_new_books polNoBuy orc409 [mkBook "b1" "v1" 3, mkBook "b2" "v2" 5] 0 [] [] =
      (Except.ok [], 0, []) :=
  c2_insufficient_funds_halts polNoBuy orc409 (mkBook "b1" "v1" 3)
    [mkBook "b2" "v2" 5] 0 [] [] (by decide) (by decide) (by decide)

/-! ## C3 — when a currency purchase is attempted, and with what amount -/

/-- C3 counterexample.  The claim says that whenever the balance is below the
item's price and currency purchase is allowed and confirmed, a purchase of a
pack covering the shortfall is attempted.  Concretely: balance 1, one
orderable book priced 3, purchases enabled with confirmations suppressed: the
planner attempts no purchase at all (no `buyReq` event, empty trace) and
simply stops. -/
theorem c3_counterexample :
    handle_new_books polBuy orc409 [mkBook "b2" "v2" 3] 1 [] [] =
      (Except.ok [], 1, []) := by
  rfl

/-- C3 amended: a currency purchase is attempted for an item (the trace of
its loop iteration starts with a `buyReq`) if and only if the balance is
exactly 0, purchasing is enabled and the coin-purchase confirmation passes;
the amount requested is then the item's full price, passed directly to
`buy_coins` — the pack table is not consulted. -/
theorem c3_amended (pol : PlannerPolicy) (orc : PlannerOracle) (b : JNCBook)
    (coins : Int)
    (hconf : (pol.no_confirm_order || orc.confirm_order b.book_id) = true) :
    (planner_step pol orc b coins).2.2.head? = some (Event.buyReq b.price) ↔
      (coins == 0 && pol.buy_coins_enabled &&
        (pol.no_confirm_coins || orc.confirm_coins b.book_id)) = true := by
  have hskip : (!pol.no_confirm_order && !orc.confirm_order b.book_id) = false := by
    cases h1 : pol.no_confirm_order <;> cases h2 : orc.confirm_order b.book_id <;>
      simp_all
  by_cases hbuy : (coins == 0 && pol.buy_coins_enabled &&
      (pol.no_confirm_coins || orc.confirm_coins b.book_id)) = true
  · simp only [hbuy, iff_true]
    by_cases h5 : b.price < 500
    · simp [planner_step, hskip, hbuy, buy_coins, h5]
    · by_cases h3 : orc.buy_status b.book_id < 300
      · by_cases h2 : (orc.buy_status b.book_id == 200 && !orc.buy_resp_ok b.book_id) = true
        · simp [planner_step, hskip, hbuy, buy_coins, h5, h3, h2]
        · by_cases hlt : coins + b.price < b.price
          · simp [planner_step, hskip, hbuy, buy_coins, h5, h3, h2, hlt]
          · by_cases h409 : (orc.redeem_status b.book_id == 409) = true
            · simp [planner_step, hskip, hbuy, buy_coins, order_book, h5, h3, h2,
                hlt, h409, Int.not_lt.mp hlt]
            · by_cases hok : response_ok (orc.redeem_status b.book_id) = true
              · by_cases hfi : orc.fetch_info_status b.book_id < 300 <;>
                  simp [planner_step, hskip, hbuy, buy_coins, order_book, h5, h3,
                    h2, hlt, h409, hok, hfi, Int.not_lt.mp hlt]
              · simp [planner_step, hskip, hbuy, buy_coins, order_book, h5, h3,
                  h2, hlt, h409, hok, Int.not_lt.mp hlt]
      · simp [planner_step, hskip, hbuy, buy_coins, h5, h3]
  · simp only [hbuy, iff_false]
    have hbuy' : (coins == 0 && pol.buy_coins_enabled &&
        (pol.no_confirm_coins || orc.confirm_coins b.book_id)) = false := by
      simpa using hbuy
    by_cases hlt : coins < b.price
    · simp [planner_step, hskip, hbuy', hlt]
    · have hle : b.price ≤ coins := Int.not_lt.mp hlt
      by_cases h409 : (orc.redeem_status b.book_id == 409) = true
      · simp [planner_step, hskip, hbuy', hlt, order_book, hle, h409]
      · by_cases hok : response_ok (orc.redeem_status b.book_id) = true
        · by_cases hfi : orc.fetch_info_status b.book_id < 300 <;>
            simp [planner_step, hskip, hbuy', hlt, order_book, hle, h409, hok, hfi]
        · simp [planner_step, hskip, hbuy', hlt, order_book, hle, h409, hok]

/-- C3 witness: with balance 0, purchasing enabled and confirmations
suppressed, the first event of the iteration for a 600-coin book is the
invocation of `buy_coins` with exactly 600 (the book's price). -/
theorem c3_amended_witness :
    (planner_step polBuy orc409 (mkBook "b2" "v2" 600) 0).2.2.head? =
      some (Event.buyReq 600) :=
  (c3_amended polBuy orc409 (mkBook "b2" "v2" 600) 0 (by decide)).mpr (by decide)

/-! ## C4 — range validation of currency purchases -/

/-- C4: the out-of-range rejection the claim (and the functions' own
docstrings) describe does not happen.  `buy_credits`' guard is the Python
chained comparison `0 >= amount > 10`, which no amount satisfies, so every
invocation — e.g. amount 11, above the documented maximum of 10 — reaches the
network POST; and `buy_coins` checks only the 500-coin minimum, so any amount
of at least 500, e.g. 1000000, also reaches the network POST. -/
theorem c4_validation_gap :
    (∀ st : Nat, ∀ a cr : Int, Event.buyNetCall a ∈ (buy_credits st a cr).2.2) ∧
    buy_credits 204 11 0 =
      (Except.ok (), 11, [Event.buyReq 11, Event.buyNetCall 11]) ∧
    (∀ st : Nat, ∀ bok : Bool, ∀ a c : Int, 500 ≤ a →
      Event.buyNetCall a ∈ (buy_coins st bok a c).2.2) := by
  refine ⟨?_, by rfl, ?_⟩
  · intro st a cr
    have hg : ¬(0 ≥ a ∧ a > 10) := by omega
    by_cases h3 : st < 300 <;> simp [buy_credits, hg, h3]
  · intro st bok a c ha
    have h5 : ¬a < 500 := by omega
    by_cases h3 : st < 300
    · by_cases h2 : (st == 200 && !bok) = true <;> simp [buy_coins, h5, h3, h2]
    · simp [buy_coins, h5, h3]

/-! ## C5 — which series get unfollowed -/

/-- Unfolding `assocLookup` one step. -/
theorem assocLookup_cons {α : Type} (p : String × α) (t : List (String × α))
    (key : String) :
    assocLookup (p :: t) key = if p.1 == key then some p.2 else assocLookup t key :=
  rfl

/-- Looking up the key just set by a dict assignment, replacement case. -/
theorem assocLookup_map_set {α : Type} (k : String) (v : α) :
    ∀ m : List (String × α), m.any (fun p => p.1 == k) = true →
      assocLookup (m.map (fun p => if p.1 == k then (k, v) else p)) k = some v := by
  intro m
  induction m with
  | nil => simp
  | cons p t ih =>
    intro hany
    rw [List.map_cons]
    by_cases hk : (p.1 == k) = true
    · rw [if_pos hk, assocLookup_cons]
      simp
    · rw [if_neg hk, assocLookup_cons, if_neg hk]
      rw [List.any_cons] at hany
      have ht : t.any (fun p => p.1 == k) = true := by
        rcases Bool.or_eq_true_iff.mp hany with h1 | h1
        · exact absurd h1 hk
        · exact h1
      exact ih ht

/-- Looking up the key just set by a dict assignment, append case. -/
theorem assocLookup_append_set {α : Type} (k : String) (v : α) :
    ∀ m : List (String × α), m.any (fun p => p.1 == k) = false →
      assocLookup (m ++ [(k, v)]) k = some v := by
  intro m
  induction m with
  | nil =>
    intro _
    rw [List.nil_append, assocLookup_cons]
    simp
  | cons p t ih =>
    intro hany
    rw [List.any_cons] at hany
    rcases Bool.or_eq_false_iff.mp hany with ⟨hk, ht⟩
    rw [List.cons_append, assocLookup_cons, if_neg (ne_true_of_eq_false hk)]
    exact ih ht

/-- `m[k] = v` makes a subsequent lookup of `k` yield `v`. -/
theorem assocLookup_assocSet {α : Type} (m : List (String × α)) (k : String) (v : α) :
    assocLookup (assocSet m k v) k = some v := by
  unfold assocSet
  by_cases hany : m.any (fun p => p.1 == k) = true
  · rw [if_pos hany]
    exact assocLookup_map_set k v m hany
  · have hany' : m.any (fun p => p.1 == k) = false :=
      Bool.eq_false_iff.mpr hany
    rw [if_neg hany]
    exact assocLookup_append_set k v m hany'

/-- `unfollow_completed_series` on a single series, written as its two tests. -/
theorem unfollow_single (d : List String) (s : JNCSeriesM)
    (follow : List (String × Bool)) :
    unfollow_completed_series d [s] follow =
      if !tagged_fully_translated s then follow
      else if s.volumes.all (fun v => d.contains v.1) then
        assocSet follow s.slug false
      else follow :=
  rfl

/-- An empty series with the tag, proposed for unfollow by the code. -/
def seriesEmpty : JNCSeriesM :=
  { slug := "e", tags := "fully translated,other", volumes := [] }

/-- A tagged series whose single volume is an undownloaded current preorder
(`is_preorder` true, release in the future relative to run time 10). -/
def seriesPreorder : JNCSeriesM :=
  { slug := "p", tags := "fully translated",
    volumes := [("p1", { mkBook "p1" "pv1" 3 with
      is_preorder := some true, publish_date := 100 })] }

/-- C5 counterexample.  The claim says a collection with zero known items is
never proposed, and that a collection every item of which is downloaded or a
current preorder is proposed.  Concretely: the tagged zero-item series `e` IS
flipped to false, while the tagged series `p`, whose only item is an
undownloaded current preorder (`is_preorder = true`, release 100, after run
time 10), is NOT proposed — its follow entry stays true. -/
theorem c5_counterexample :
    unfollow_completed_series [] [seriesEmpty] [("e", true)] = [("e", false)] ∧
    unfollow_completed_series [] [seriesPreorder] [("p", true)] = [("p", true)] ∧
    seriesPreorder.volumes.all
      (fun v => v.2.is_preorder == some true && decide (10 < v.2.publish_date)) = true := by
  refine ⟨by rfl, by rfl, by rfl⟩

/-- C5 amended: a series is proposed for unfollow (its follow entry assigned
false) if and only if its tag string contains the substring "fully
translated" and every one of its known item ids is in the download ledger —
with no preorder exception, and vacuously for a series with zero known items;
adding one item whose id is not in the ledger (released or not) removes the
series from the proposal. -/
theorem c5_amended (d : List String) (s : JNCSeriesM) (follow : List (String × Bool)) :
    (tagged_fully_translated s = true →
      s.volumes.all (fun v => d.contains v.1) = true →
      assocLookup (unfollow_completed_series d [s] follow) s.slug = some false) ∧
    ((tagged_fully_translated s && s.volumes.all (fun v => d.contains v.1)) = false →
      unfollow_completed_series d [s] follow = follow) ∧
    (∀ bid : String, ∀ nb : JNCBook, d.contains bid = false →
      unfollow_completed_series d [{ s with volumes := s.volumes ++ [(bid, nb)] }]
        follow = follow) := by
  refine ⟨?_, ?_, ?_⟩
  · intro htag hall
    have h1 : (!tagged_fully_translated s) = false := by rw [htag]; rfl
    rw [unfollow_single, if_neg (ne_true_of_eq_false h1), if_pos hall]
    exact assocLookup_assocSet follow s.slug false
  · intro hfalse
    rcases Bool.and_eq_false_iff.mp hfalse with h | h
    · have h1 : (!tagged_fully_translated s) = true := by rw [h]; rfl
      rw [unfollow_single, if_pos h1]
    · by_cases htag : tagged_fully_translated s = true
      · have h1 : (!tagged_fully_translated s) = false := by rw [htag]; rfl
        rw [unfollow_single, if_neg (ne_true_of_eq_false h1),
          if_neg (ne_true_of_eq_false h)]
      · have h0 : tagged_fully_translated s = false := Bool.eq_false_iff.mpr htag
        have h1 : (!tagged_fully_translated s) = true := by rw [h0]; rfl
        rw [unfollow_single, if_pos h1]
  · intro bid nb hmem
    have hall : ((s.volumes ++ [(bid, nb)]).all (fun v => d.contains v.1)) = false := by
      rw [List.all_append]
      have h2 : ([(bid, nb)].all (fun v => d.contains v.1)) = false := by
        rw [List.all_cons, List.all_nil, Bool.and_true]
        exact hmem
      rw [h2, Bool.and_false]
    have heta : ({ s with volumes := s.volumes ++ [(bid, nb)] } : JNCSeriesM) =
        { slug := s.slug, tags := s.tags, volumes := s.volumes ++ [(bid, nb)] } :=
      rfl
    have htagu : tagged_fully_translated
        { slug := s.slug, tags := s.tags, volumes := s.volumes ++ [(bid, nb)] } =
          tagged_fully_translated s := rfl
    rw [unfollow_single, heta]
    by_cases htag : tagged_fully_translated s = true
    · have h1 : (!tagged_fully_translated
          { slug := s.slug, tags := s.tags, volumes := s.volumes ++ [(bid, nb)] }) = false := by
        rw [htagu, htag]; rfl
      rw [if_neg (ne_true_of_eq_false h1)]
      rw [if_neg (ne_true_of_eq_false hall)]
    · have h0 : tagged_fully_translated s = false := Bool.eq_false_iff.mpr htag
      have h1 : (!tagged_fully_translated
          { slug := s.slug, tags := s.tags, volumes := s.volumes ++ [(bid, nb)] }) = true := by
        rw [htagu, h0]; rfl
      rw [if_pos h1]

/-! ## C6 — new-collection detection -/

/-- A library book whose collection slug is absent (`serie` missing from the
API response, Python `None`). -/
def bookNoSeries : JNCBook := mkBook "x1" "xv1" 0

/-- C6 counterexample.  The claim says an item whose collection slug is
absent is never a source of a new collection.  Concretely: a library of one
book with an absent slug and no known collections yields `[none]` — Python's
`None != ''` is true and `None not in known_series` is true, so the absent
value itself is appended — not the empty list the claim requires. -/
theorem c6_counterexample :
    get_new_series [bookNoSeries] [] = [none] ∧
    get_new_series [bookNoSeries] [] ≠ [] := by
  exact ⟨by rfl, by decide⟩

/-- The loop of `get_new_series` equals first-seen de-duplication of the
filtered slug sequence, for every accumulator. -/
theorem get_new_series_go_eq (known : List String) :
    ∀ library : List JNCBook, ∀ acc : List (Option String),
      get_new_series_go known acc library =
        firstSeenDedup acc
          ((library.map (fun b => b.series_slug)).filter
            (fun s => !(s == some "") && !optMem s known)) := by
  intro library
  induction library with
  | nil => intro acc; rfl
  | cons b rest ih =>
    intro acc
    rw [List.map_cons, List.filter_cons]
    by_cases he : (!(b.series_slug == some "") && !optMem b.series_slug known) = true
    · rw [if_pos he]
      by_cases hc : acc.contains b.series_slug = true
      · have hcond : (!(b.series_slug == some "") && !optMem b.series_slug known &&
            !acc.contains b.series_slug) = false := by
          rw [he, hc]; rfl
        rw [get_new_series_go, if_neg (ne_true_of_eq_false hcond),
          firstSeenDedup, if_pos hc]
        exact ih acc
      · have hc' : acc.contains b.series_slug = false := Bool.eq_false_iff.mpr hc
        have hcond : (!(b.series_slug == some "") && !optMem b.series_slug known &&
            !acc.contains b.series_slug) = true := by
          rw [he, hc']; rfl
        rw [get_new_series_go, if_pos hcond, firstSeenDedup,
          if_neg (ne_true_of_eq_false hc')]
        exact ih (acc ++ [b.series_slug])
    · have he' : (!(b.series_slug == some "") && !optMem b.series_slug known) = false :=
        Bool.eq_false_iff.mpr he
      have hcond : (!(b.series_slug == some "") && !optMem b.series_slug known &&
          !acc.contains b.series_slug) = false := by
        rw [he']; rfl
      rw [if_neg (ne_true_of_eq_false he'), get_new_series_go,
        if_neg (ne_true_of_eq_false hcond)]
      exact ih acc

/-- C6 amended: `get_new_series` returns exactly the collection slugs of the
library's items that are not the empty string and not known ledger keys, in
first-seen order, de-duplicated — where an item with an absent slug is NOT
excluded: the absent value passes the `!= ''` test and contributes one entry. -/
theorem c6_amended (library : List JNCBook) (known : List String) :
    get_new_series library known =
      firstSeenDedup []
        ((library.map (fun b => b.series_slug)).filter
          (fun s => !(s == some "") && !optMem s known)) :=
  get_new_series_go_eq known library []

/-! ## C7 — ledger updates and failure handling in `process_library` -/

/-- A download environment where every content GET answers 200 but the file
write for book `w` fails. -/
def dlWriteFail : DLOracle :=
  { fetch_status := fun _ => 200, write_ok := fun id => !(id == "w") }

/-- A released, owned book with a download link. -/
def dlBook (id : String) : JNCBook :=
  { mkBook id (String.append id "v") 0 with download_link := some "L" }

/-- C7 counterexample.  The claim says that if the fetch or the write for an
item fails, the ledger entry is left untouched and processing continues with
the remaining items.  Concretely: two eligible books `w`, `x`, the write for
`w` failing: the uncaught `OSError` ends the run — the ledger stays empty
(untouched, as claimed) but `x` is never fetched, while the same library
without `w` downloads `x` and records it. -/
theorem c7_counterexample :
    process_library dlWriteFail 10 false [("w", dlBook "w"), ("x", dlBook "x")] [] [] =
      (Except.error JNCError.osError, [], [Event.fetchContent "w"]) ∧
    process_library dlWriteFail 10 false [("x", dlBook "x")] [] [] =
      (Except.ok (), [("x", 10)], [Event.fetchContent "x", Event.fileWrite "x"]) := by
  exact ⟨by rfl, by rfl⟩

/-- C7 amended: for an eligible item (not a preorder, released, with a
download link, absent from the ledger), the ledger entry is set to `now` only
in the branch where both the content fetch and the file write succeeded; a
fetch failure (`JNCApiError`, caught) leaves the entry untouched and
processing continues with the remaining items; a write failure (`OSError`,
uncaught) also leaves the entry untouched but aborts the run, so the
remaining items are not processed. -/
theorem c7_amended (orc : DLOracle) (now : Int) (inc : Bool) (book_id : String)
    (b : JNCBook) (rest : List (String × JNCBook)) (ledger : List (String × Int))
    (evs : List Event)
    (h1 : (b.is_preorder == some true) = false)
    (h2 : b.publish_date ≤ now)
    (h3 : b.download_link ≠ none)
    (h4 : assocLookup ledger book_id = none) :
    (orc.fetch_status b.book_id ≠ 200 →
      process_library orc now inc ((book_id, b) :: rest) ledger evs =
        process_library orc now inc rest ledger
          (evs ++ [Event.fetchContent b.book_id])) ∧
    (orc.fetch_status b.book_id = 200 → orc.write_ok b.book_id = true →
      process_library orc now inc ((book_id, b) :: rest) ledger evs =
        process_library orc now inc rest (assocSet ledger book_id now)
          (evs ++ [Event.fetchContent b.book_id, Event.fileWrite b.book_id])) ∧
    (orc.fetch_status b.book_id = 200 → orc.write_ok b.book_id = false →
      process_library orc now inc ((book_id, b) :: rest) ledger evs =
        (Except.error JNCError.osError, ledger,
          evs ++ [Event.fetchContent b.book_id])) := by
  obtain ⟨l, hl⟩ : ∃ l, b.download_link = some l := by
    cases h : b.download_link with
    | none => exact absurd h h3
    | some l => exact ⟨l, rfl⟩
  have hnotlt : decide (now < b.publish_date) = false := by
    simp [Int.not_lt.mpr h2]
  refine ⟨?_, ?_, ?_⟩
  · intro hfetch
    simp [process_library, h1, hnotlt, hl, h4, download_book, hfetch]
  · intro hfetch hwrite
    simp [process_library, h1, hnotlt, hl, h4, download_book, hfetch, hwrite]
  · intro hfetch hwrite
    simp [process_library, h1, hnotlt, hl, h4, download_book, hfetch, hwrite]

/-- C7 witness: the amended theorem at a concrete eligible book whose fetch
succeeds and whose write fails, and at one where both succeed. -/
theorem c7_amended_witness :
    process_library dlWriteFail 10 false [("w", dlBook "w")] [] [] =
      (Except.error JNCError.osError, [], [Event.fetchContent "w"]) ∧
    process_library dlWriteFail 10 false [("x", dlBook "x"), ("y", dlBook "y")] [] [] =
      process_library dlWriteFail 10 false [("y", dlBook "y")] [("x", 10)]
        [Event.fetchContent "x", Event.fileWrite "x"] := by
  constructor
  · exact (c7_amended dlWriteFail 10 false "w" (dlBook "w") [] [] []
      (by decide) (by decide) (by decide) rfl).2.2 rfl rfl
  · have h := (c7_amended dlWriteFail 10 false "x" (dlBook "x") [("y", dlBook "y")] [] []
      (by decide) (by decide) (by decide) rfl).2.1 rfl rfl
    simpa [assocSet] using h

/-! ## C8 — a fully-ledgered library performs no fetch -/

/-- Auxiliary induction: with `include_updated` false, every item whose id is
a ledger key is skipped, so a fully-ledgered library changes nothing. -/
theorem process_library_all_ledgered (orc : DLOracle) (now : Int) :
    ∀ library : List (String × JNCBook), ∀ ledger : List (String × Int),
      ∀ evs : List Event,
      (∀ p ∈ library, (assocLookup ledger p.1).isSome = true) →
      process_library orc now false library ledger evs = (Except.ok (), ledger, evs) := by
  intro library
  induction library with
  | nil => intro ledger evs _; rfl
  | cons p rest ih =>
    intro ledger evs h
    obtain ⟨book_id, b⟩ := p
    have hmem : (assocLookup ledger book_id).isSome = true :=
      h (book_id, b) (List.mem_cons_self _ _)
    have hcond : (b.is_preorder == some true || decide (now < b.publish_date) ||
        b.download_link == none || ((assocLookup ledger book_id).isSome && !false)) = true := by
      rw [hmem]
      simp
    rw [process_library, if_pos hcond]
    exact ih ledger evs (fun q hq => h q (List.mem_cons_of_mem _ hq))

/-- C8: running `process_library` with `include_updated` false on a library
whose every item id is a ledger key performs no content fetch and leaves the
ledger unchanged — and a second run (any later wall clock, any server
behaviour) on the resulting ledger again performs no fetch. -/
theorem c8_ledgered_idempotent (orc orc2 : DLOracle) (now now2 : Int)
    (library : List (String × JNCBook)) (ledger : List (String × Int))
    (h : ∀ p ∈ library, (assocLookup ledger p.1).isSome = true) :
    process_library orc now false library ledger [] = (Except.ok (), ledger, []) ∧
    process_library orc2 now2 false library
      (process_library orc now false library ledger []).2.1 [] =
        (Except.ok (), ledger, []) := by
  have h1 := process_library_all_ledgered orc now library ledger [] h
  refine ⟨h1, ?_⟩
  rw [h1]
  exact process_library_all_ledgered orc2 now2 library ledger [] h

/-- C8 witness: a concrete two-book library entirely contained in the ledger:
both runs return the ledger unchanged with an empty trace. -/
theorem c8_witness :
    process_library dlWriteFail 10 false [("w", dlBook "w"), ("x", dlBook "x")]
      [("w", 3), ("x", 4)] [] = (Except.ok (), [("w", 3), ("x", 4)], []) ∧
    process_library dlWriteFail 11 false [("w", dlBook "w"), ("x", dlBook "x")]
      (process_library dlWriteFail 10 false [("w", dlBook "w"), ("x", dlBook "x")]
        [("w", 3), ("x", 4)] []).2.1 [] = (Except.ok (), [("w", 3), ("x", 4)], []) :=
  c8_ledgered_idempotent dlWriteFail dlWriteFail 10 11
    [("w", dlBook "w"), ("x", dlBook "x")] [("w", 3), ("x", 4)] (by decide)

/-! ## C9 — legacy ledger-row timestamp inference (modelled from the spec) -/

/-- C9: loading a legacy two-column ledger row `[id, marker]` for a book
whose purchase timestamp is present assigns the later of the two timestamps,
whichever order they come in: the purchase timestamp when the release is not
after it, and the release timestamp when the purchase is not after it. -/
theorem c9_legacy_inference (books : String → Option JNCBook) (id marker : String)
    (b : JNCBook) (q : Int)
    (hb : books id = some b)
    (hp : b.purchase_date = some q) :
    (b.publish_date ≤ q →
      load_legacy_ledger_row books [id, marker] = some (id, q)) ∧
    (q ≤ b.publish_date →
      load_legacy_ledger_row books [id, marker] = some (id, b.publish_date)) := by
  constructor
  · intro hle
    simp [load_legacy_ledger_row, hb, infer_legacy_ledger_timestamp, hp,
      max_eq_right hle]
  · intro hge
    simp [load_legacy_ledger_row, hb, infer_legacy_ledger_timestamp, hp,
      max_eq_left hge]

/-- The spec's scenario book: item 42 with publish date 2020-01-01 and
purchase date 2020-02-01 (dates encoded as yyyymmdd integers). -/
def book42 : JNCBook :=
  { mkBook "42" "some-slug" 0 with
      publish_date := 20200101, purchase_date := some 20200201 }

/-- The opposite ordering: item 43 was purchased 2019-12-01 as a preorder and
released 2020-01-01, so the release date is the later of the two. -/
def book43 : JNCBook :=
  { mkBook "43" "other-slug" 0 with
      publish_date := 20200101, purchase_date := some 20191201 }

/-- C9 witness — the spec's scenario and its mirror image: legacy row
`["42", "some-slug"]` for `book42` is assigned timestamp 2020-02-01 (the
later, here the purchase date), and legacy row `["43", "other-slug"]` for
`book43` is assigned 2020-01-01 (the later, here the release date). -/
theorem c9_witness :
    load_legacy_ledger_row (fun id => if id == "42" then some book42 else none)
      ["42", "some-slug"] = some ("42", 20200201) ∧
    load_legacy_ledger_row (fun id => if id == "43" then some book43 else none)
      ["43", "other-slug"] = some ("43", 20200101) :=
  ⟨(c9_legacy_inference (fun id => if id == "42" then some book42 else none)
      "42" "some-slug" book42 20200201 (by rfl) (by rfl)).1 (by decide),
   (c9_legacy_inference (fun id => if id == "43" then some book43 else none)
      "43" "other-slug" book43 20191201 (by rfl) (by rfl)).2 (by decide)⟩

/-! ## C10 — the balance never goes negative -/

/-- C10: from a non-negative balance, `order_book` keeps the balance
non-negative, raises `NoCoinsError` before any network request (empty trace,
balance unchanged) whenever the balance is below the price, decrements by
exactly the price only on success, and `buy_coins` never decreases the
balance. -/
theorem c10_balance_invariant (st : Nat) (b : JNCBook) (coins : Int)
    (bst : Nat) (bok : Bool) (amount : Int)
    (h : 0 ≤ coins) :
    0 ≤ (order_book st b coins).2.1 ∧
    (coins < b.price →
      order_book st b coins = (Except.error JNCError.noCoinsError, coins, [])) ∧
    ((order_book st b coins).1 = Except.ok () →
      (order_book st b coins).2.1 = coins - b.price ∧ b.price ≤ coins) ∧
    coins ≤ (buy_coins bst bok amount coins).2.1 := by
  refine ⟨?_, ?_, ?_, ?_⟩
  · by_cases hle : b.price ≤ coins
    · by_cases h409 : (st == 409) = true
      · simpa [order_book, hle, h409] using h
      · by_cases hok : response_ok st = true
        · have hv : (order_book st b coins).2.1 = coins - b.price := by
            simp [order_book, hle, h409, hok]
          rw [hv]
          omega
        · have hok' : response_ok st = false := Bool.eq_false_iff.mpr hok
          simpa [order_book, hle, h409, hok'] using h
    · simpa [order_book, hle] using h
  · intro hlt
    have hle : ¬b.price ≤ coins := by omega
    simp [order_book, hle]
  · intro hok
    by_cases hle : b.price ≤ coins
    · by_cases h409 : (st == 409) = true
      · simp [order_book, hle, h409] at hok
      · by_cases hrok : response_ok st = true
        · refine ⟨?_, hle⟩
          simp [order_book, hle, h409, hrok]
        · have hrok' : response_ok st = false := Bool.eq_false_iff.mpr hrok
          simp [order_book, hle, h409, hrok'] at hok
    · simp [order_book, hle] at hok
  · by_cases h5 : amount < 500
    · simp [buy_coins, h5]
    · by_cases h3 : bst < 300
      · by_cases h2 : (bst == 200 && !bok) = true
        · simp [buy_coins, h5, h3, h2]
        · have hv : (buy_coins bst bok amount coins).2.1 = coins + amount := by
            simp [buy_coins, h5, h3, h2]
          rw [hv]
          omega
      · simp [buy_coins, h5, h3]

/-- C10 witness: balance 5, price 3, success status 204; and a 700-coin
purchase: all four conjuncts at a concrete input. -/
theorem c10_witness :
    0 ≤ (order_book 204 (mkBook "b1" "v1" 3) 5).2.1 ∧
    ((5 : Int) < (mkBook "b1" "v1" 3).price →
      order_book 204 (mkBook "b1" "v1" 3) 5 =
        (Except.error JNCError.noCoinsError, 5, [])) ∧
    ((order_book 204 (mkBook "b1" "v1" 3) 5).1 = Except.ok () →
      (order_book 204 (mkBook "b1" "v1" 3) 5).2.1 = 5 - (mkBook "b1" "v1" 3).price ∧
        (mkBook "b1" "v1" 3).price ≤ 5) ∧
    (5 : Int) ≤ (buy_coins 200 true 700 5).2.1 :=
  c10_balance_invariant 204 (mkBook "b1" "v1" 3) 5 200 true 700 (by decide)

end JNC
